import Mathlib

/-!
Verification development for `braindonors/vid_convert` (`src/convert_prores.py`).

The Python script is shallowly embedded below.  External effects (the `ffprobe`
metadata probes, the `ffmpeg` capability query and encode subprocess, the
filesystem, the wall clock and the encoder's live output stream) are supplied
by an explicit `Env` record, and every function returns the list of subprocess
command argument lists it launches, in order, so that claims about "no
subprocess is launched" can be stated as facts about that trace.  Python
machine arithmetic in the progress tracker is modelled over `ℤ`/`ℚ`, with
Python's raising division modelled by `pyDivQ : ℚ → ℚ → Except PyExc ℚ`.
-/

namespace VidConvert

/-! ### String and path helpers (Python `str` and `os.path` semantics) -/

/-- Index of the first position of `l` at which `sep` occurs as a contiguous
block, if any (Python `str.find` restricted to what the script needs). -/
def findSep (sep : List Char) : List Char → Option Nat
  | [] => if sep = [] then some 0 else none
  | c :: rest =>
    if sep = (c :: rest).take sep.length then some 0
    else (findSep sep rest).map (fun i => i + 1)

/-- Python's `needle in hay` substring test. -/
def strContains (hay needle : String) : Bool :=
  (findSep needle.data hay.data).isSome

/-- Python's `str.lower()` (the script only ever lowercases ASCII data). -/
def lowerStr (s : String) : String := ⟨s.data.map Char.toLower⟩

/-- Index of the last occurrence of `c` in `l` (Python `str.rfind`), if any. -/
def rfindChar (c : Char) : List Char → Option Nat
  | [] => none
  | x :: xs =>
    match rfindChar c xs with
    | some i => some (i + 1)
    | none => if x = c then some 0 else none

/-- Python `os.path.basename`: everything after the last `/`. -/
def basename (p : String) : String :=
  match rfindChar '/' p.data with
  | none => p
  | some i => ⟨p.data.drop (i + 1)⟩

/-- Python `os.path.dirname`: everything before the last `/`, with trailing
slashes stripped unless the head is all slashes. -/
def dirname (p : String) : String :=
  match rfindChar '/' p.data with
  | none => ""
  | some i =>
    let head := p.data.take (i + 1)
    if head.all (fun c => c = '/') then ⟨head⟩
    else ⟨(head.reverse.dropWhile (fun c => c = '/')).reverse⟩

/-- Python `os.path.splitext`: split at the last dot of the final component,
unless every character between the start of that component and the dot is
itself a dot (so `.bashrc` has no extension). -/
def splitext (p : String) : String × String :=
  let l := p.data
  let sepIdx : Int := match rfindChar '/' l with | none => -1 | some i => i
  let dotIdx : Int := match rfindChar '.' l with | none => -1 | some i => i
  if sepIdx < dotIdx then
    let fnameStart := (sepIdx + 1).toNat
    let between := (l.drop fnameStart).take (dotIdx.toNat - fnameStart)
    if between.any (fun c => c ≠ '.') then
      (⟨l.take dotIdx.toNat⟩, ⟨l.drop dotIdx.toNat⟩)
    else (p, "")
  else (p, "")

/-- Python `os.path.join` for the two-argument calls the script makes. -/
def joinPath (a b : String) : String :=
  if b.data.head? = some '/' then b
  else if a = "" ∨ a.data.getLast? = some '/' then a ++ b
  else a ++ "/" ++ b

theorem str_data_append (a b : String) : (a ++ b).data = a.data ++ b.data := rfl

/-- Every character of the joined component `b` occurs in `joinPath a b`. -/
theorem mem_data_joinPath {c : Char} (a b : String) (h : c ∈ b.data) :
    c ∈ (joinPath a b).data := by
  unfold joinPath
  split
  · exact h
  · split <;> simp [str_data_append, h]

/-! ### The progress tracker (source lines 117–140)

For each stream line containing `"frame="`, the script parses the integer
after the marker, then computes elapsed time, ETA and percent-complete.  The
`try` block catches only `IndexError` and `ValueError`; any other exception
(notably `ZeroDivisionError`) propagates out of the conversion. -/

/-- Python exceptions the embedded fragments can raise. -/
inductive PyExc where
  | zeroDivisionError
  | valueError
  | indexError
  deriving DecidableEq, Repr

/-- Python division over the script's numeric values: raises
`ZeroDivisionError` on a zero denominator, otherwise exact division. -/
def pyDivQ (a b : ℚ) : Except PyExc ℚ :=
  if b = 0 then .error .zeroDivisionError else .ok (a / b)

/-- One observable progress update (the `pbar` postfix of lines 129–135). -/
structure ProgressUpdate where
  frame : ℤ
  elapsed : ℚ
  eta : ℚ
  percent : ℚ

/-- Line 128: `eta = (elapsed_time / frame) * (nb_frames - frame) if frame > 0 else 0`. -/
def eta_comp (nb_frames frame : ℤ) (elapsed : ℚ) : Except PyExc ℚ :=
  if frame > 0 then do
    let q ← pyDivQ elapsed (frame : ℚ)
    .ok (q * ((nb_frames : ℚ) - (frame : ℚ)))
  else .ok 0

/-- Lines 127–134: the arithmetic performed for one parsed frame number —
ETA first, then the percent-complete `(frame / nb_frames) * 100`. -/
def progress_update (nb_frames frame : ℤ) (elapsed : ℚ) :
    Except PyExc ProgressUpdate := do
  let eta ← eta_comp nb_frames frame elapsed
  let ratio ← pyDivQ (frame : ℚ) (nb_frames : ℚ)
  .ok ⟨frame, elapsed, eta, ratio * 100⟩

/-- Python whitespace for `str.split()` with no separator. -/
def isPySpace (c : Char) : Bool :=
  c = ' ' || c = '\t' || c = '\n' || c = '\x0b' || c = '\x0c' || c = '\r'

/-- Value of a nonempty all-digit run (the core of Python `int(str)`). -/
def digitsToNat : List Char → Option Nat
  | [] => none
  | l =>
    if l.all Char.isDigit then
      some (l.foldl (fun acc c => acc * 10 + (c.toNat - 48)) 0)
    else none

/-- Python `int(token)` for a whitespace-free token: optional sign, digits;
anything else raises `ValueError` (modelled as `none`). -/
def pyInt : List Char → Option ℤ
  | '-' :: rest => (digitsToNat rest).map (fun n => -(n : ℤ))
  | '+' :: rest => (digitsToNat rest).map (fun n => (n : ℤ))
  | l => (digitsToNat l).map (fun n => (n : ℤ))

/-- Line 126: `int(line.split("frame=")[1].split()[0])`.  `split("frame=")[1]`
is the text between the first and second occurrence of the marker
(`IndexError` when the marker is absent); `.split()[0]` is the first
whitespace-delimited token of that text (`IndexError` when there is none);
`int` parses it (`ValueError` on failure). -/
def parse_frame (line : String) : Except PyExc ℤ :=
  match findSep "frame=".data line.data with
  | none => .error .indexError
  | some i =>
    let rest := line.data.drop (i + "frame=".data.length)
    let seg := match findSep "frame=".data rest with
      | none => rest
      | some j => rest.take j
    let tok := (seg.dropWhile isPySpace).takeWhile (fun c => !isPySpace c)
    if tok = [] then .error .indexError
    else
      match pyInt tok with
      | none => .error .valueError
      | some z => .ok z

/-- Line 136: the `except (IndexError, ValueError): continue` clause — those
two exceptions are swallowed, any other exception propagates. -/
def catch_line_exc : Except PyExc ProgressUpdate → Except PyExc (Option ProgressUpdate)
  | .ok u => .ok (some u)
  | .error .indexError => .ok none
  | .error .valueError => .ok none
  | .error e => .error e

/-- Lines 124–137: the body executed for one stream line.  Lines without the
marker are skipped; parse and arithmetic run inside the `try` block. -/
def line_step (nb_frames : ℤ) (elapsed : ℚ) (line : String) :
    Except PyExc (Option ProgressUpdate) :=
  if strContains line "frame=" then
    catch_line_exc (do
      let frame ← parse_frame line
      progress_update nb_frames frame elapsed)
  else .ok none

/-- Lines 123–137: consume the merged output stream line by line; the result
is the first uncaught exception, if any (`tl i` is the elapsed wall-clock
time observed while handling the `i`-th line). -/
def stream_loop (nb_frames : ℤ) (tl : Nat → ℚ) : List String → Nat → Option PyExc
  | [], _ => none
  | line :: rest, i =>
    match line_step nb_frames (tl i) line with
    | .error e => some e
    | .ok _ => stream_loop nb_frames tl rest (i + 1)

/-! ### External world -/

/-- Outcome of one attempted subprocess invocation of an external probe tool.
`toolMissing` models `FileNotFoundError` raised before any child process is
created (so nothing is launched); `failed` models a launched process whose
nonzero exit or unparsable output makes the caller's `try` block raise. -/
inductive ProbeRes (α : Type) where
  | toolMissing
  | failed
  | ok (val : α)

/-- The whole external world the script touches: probe outcomes, the
filesystem, directory walking, the capability query, the encoder's merged
output stream, its exit code, and the wall clock. -/
structure Env where
  videoProbe : String → ProbeRes (ℤ × ℚ × String)
  audioProbe : String → ProbeRes String
  pathExists : String → Bool
  isdir : String → Bool
  walkFiles : String → List String
  hwaccelsQuery : Except Unit String
  streamLines : List String → List String
  returncode : List String → ℤ
  elapsedAt : Nat → ℚ

/-! ### Metadata prober (source lines 29–55) -/

/-- Lines 32–35: the first `ffprobe` invocation (video stream). -/
def ffprobe_video_cmd (file_path : String) : List String :=
  ["ffprobe", "-v", "error", "-select_streams", "v:0", "-show_entries",
   "stream=nb_frames,codec_name,duration", "-of", "json", file_path]

/-- Lines 44–47: the second `ffprobe` invocation (audio stream). -/
def ffprobe_audio_cmd (file_path : String) : List String :=
  ["ffprobe", "-v", "error", "-select_streams", "a:0", "-show_entries",
   "stream=codec_name", "-of", "json", file_path]

/-- Lines 29–55: `get_file_info`.  Returns the subprocess launches it made and
`(nb_frames, duration, codec_name, audio_codec)`; any exception along the way
is caught and the zero/"Unknown" defaults are returned instead. -/
def get_file_info (env : Env) (file_path : String) :
    List (List String) × (ℤ × ℚ × String × String) :=
  match env.videoProbe file_path with
  | .toolMissing => ([], (0, 0, "Unknown", "Unknown"))
  | .failed => ([ffprobe_video_cmd file_path], (0, 0, "Unknown", "Unknown"))
  | .ok (nb_frames, duration, codec_name) =>
    match env.audioProbe file_path with
    | .toolMissing => ([ffprobe_video_cmd file_path], (0, 0, "Unknown", "Unknown"))
    | .failed => ([ffprobe_video_cmd file_path, ffprobe_audio_cmd file_path],
        (0, 0, "Unknown", "Unknown"))
    | .ok audio_codec => ([ffprobe_video_cmd file_path, ffprobe_audio_cmd file_path],
        (nb_frames, duration, codec_name, audio_codec))

/-! ### Capability detector (source lines 10–27) -/

/-- Lines 10–27: `check_gpu_support`, applied to the outcome of the
`ffmpeg -hwaccels` query (`.error` models any exception, caught at line 25). -/
def check_gpu_support (queryResult : Except Unit String) : String :=
  match queryResult with
  | .error _ => "none"
  | .ok out =>
    let hw_accels := lowerStr out
    let nvidia_support := strContains hw_accels "cuda" || strContains hw_accels "nvenc"
    let amd_support := strContains hw_accels "amf"
    if nvidia_support then "nvidia"
    else if amd_support then "amd"
    else "none"

/-! ### Command builder (source lines 57–108) -/

/-- Line 8: the recognized video extension set. -/
def VIDEO_EXTENSIONS : List String := [".mov", ".mp4", ".mkv", ".avi"]

/-- Line 68: `os.path.join(file_dir, f"{file_base}_prores{file_ext}")`. -/
def prores_output_file (input_file : String) : String :=
  joinPath (dirname input_file)
    ((splitext (basename input_file)).1 ++ "_prores" ++ (splitext (basename input_file)).2)

/-- Line 69: `os.path.join(file_dir, f"{file_base}_proxy.mp4")`. -/
def proxy_output_file (input_file : String) : String :=
  joinPath (dirname input_file) ((splitext (basename input_file)).1 ++ "_proxy.mp4")

/-- Lines 83–86: the decode-acceleration arguments appended for the detected
backend (appended to the command after `["ffmpeg", "-i", input_file]`). -/
def hwaccel_flags (gpu_type : String) : List String :=
  if gpu_type = "nvidia" then ["-hwaccel", "cuda"]
  else if gpu_type = "amd" then ["-hwaccel", "dxva2"]
  else []

/-- Lines 79–108: the single `ffmpeg` argument list, built from the base
command, the acceleration flags, the ProRes options ending in the mezzanine
output path, and — when proxy generation survived the line 75–77 check — the
proxy options ending in the proxy output path. -/
def build_command (input_file gpu_type prores_out proxy_out : String)
    (generate_proxy scale_proxy : Bool) : List String :=
  let command := ["ffmpeg", "-i", input_file] ++ hwaccel_flags gpu_type
  let command := command ++
    ["-c:v", "prores_ks", "-profile:v", "prores_hq", "-pix_fmt", "yuv422p",
     "-c:a", "copy", prores_out]
  if generate_proxy then
    command ++
      (["-c:v", "libx265", "-crf", "28", "-preset", "medium", "-c:a", "aac"] ++
        (if scale_proxy then ["-vf", "scale=iw*0.5:ih*0.5"] else []) ++ [proxy_out])
  else command

/-! ### Per-file conversion (source lines 57–147) -/

/-- Lines 57–140: `convert_to_prores_and_proxy`.  Returns the ordered list of
subprocess command argument lists launched for this file, together with the
first uncaught exception of the progress loop, if any.  The metadata probe
runs first (line 59); the extension check (line 64) and the output-exists
check (line 71) can only skip what comes after it. -/
def convert_to_prores_and_proxy (env : Env) (input_file gpu_type : String)
    (force_overwrite generate_proxy scale_proxy : Bool) :
    List (List String) × Option PyExc :=
  let probe := get_file_info env input_file
  let nb_frames := probe.2.1
  let file_ext := (splitext (basename input_file)).2
  if lowerStr file_ext ∈ VIDEO_EXTENSIONS then
    if env.pathExists (prores_output_file input_file) && !force_overwrite then
      (probe.1, none)
    else
      let gp := generate_proxy &&
        !(env.pathExists (proxy_output_file input_file) && !force_overwrite)
      let command := build_command input_file gpu_type (prores_output_file input_file)
        (proxy_output_file input_file) gp scale_proxy
      (probe.1 ++ [command],
        stream_loop nb_frames env.elapsedAt (env.streamLines command) 0)
  else (probe.1, none)

/-- Interpretation of the launch trace used for the untouched-output claims:
only an `ffmpeg` encode invocation writes files, and only to paths appearing
among its arguments; `ffprobe` and the script itself are read-only. -/
def may_write (launches : List (List String)) (p : String) : Prop :=
  ∃ c ∈ launches, c.head? = some "ffmpeg" ∧ p ∈ c

/-! ### Directory walker and entry point (source lines 149–195) -/

/-- Lines 155–158: the per-file loop of `process_directory`; an uncaught
exception in a conversion aborts the remaining files. -/
def process_files (env : Env) (gpu_type : String)
    (force_overwrite generate_proxy scale_proxy : Bool) :
    List String → Option PyExc
  | [] => none
  | f :: rest =>
    match (convert_to_prores_and_proxy env f gpu_type force_overwrite generate_proxy
        scale_proxy).2 with
    | some e => some e
    | none => process_files env gpu_type force_overwrite generate_proxy scale_proxy rest

/-- Lines 149–158: `process_directory` — a missing root is reported and
skipped (lines 151–153), which raises nothing. -/
def process_directory (env : Env) (directory gpu_type : String)
    (force_overwrite generate_proxy scale_proxy : Bool) : Option PyExc :=
  if env.isdir directory then
    process_files env gpu_type force_overwrite generate_proxy scale_proxy
      (env.walkFiles directory)
  else none

/-- Lines 190–192: the loop over the supplied root directories. -/
def process_dirs (env : Env) (gpu_type : String)
    (force_overwrite generate_proxy scale_proxy : Bool) :
    List String → Option PyExc
  | [] => none
  | d :: rest =>
    match process_directory env d gpu_type force_overwrite generate_proxy scale_proxy with
    | some e => some e
    | none => process_dirs env gpu_type force_overwrite generate_proxy scale_proxy rest

/-- Lines 171–179: one step of the argument loop, threading
`(force_overwrite, generate_proxy, scale_proxy, directories)`. -/
def parse_step (acc : Bool × Bool × Bool × List String) (arg : String) :
    Bool × Bool × Bool × List String :=
  if arg = "-f" ∨ arg = "--force" then (true, acc.2.1, acc.2.2.1, acc.2.2.2)
  else if arg = "--proxy" then (acc.1, true, acc.2.2.1, acc.2.2.2)
  else if arg = "--scale" then (acc.1, acc.2.1, true, acc.2.2.2)
  else (acc.1, acc.2.1, acc.2.2.1, acc.2.2.2 ++ [arg])

/-- Lines 166–179: parse `sys.argv[1:]`. -/
def parse_args (args : List String) : Bool × Bool × Bool × List String :=
  args.foldl parse_step (false, false, false, [])

/-- Lines 160–192: `main`, reduced to the process exit code.  `args` is
`sys.argv[1:]`.  Exit 1 for no arguments (line 164) or no directories
(line 183); an uncaught exception from the batch also terminates the Python
process with exit code 1; otherwise the process falls off the end of `main`
and exits 0 — per-file encode failures only print (lines 146–147). -/
def main_exit (env : Env) (args : List String) : Nat :=
  if args = [] then 1
  else
    let parsed := parse_args args
    if parsed.2.2.2 = [] then 1
    else
      let gpu_type := check_gpu_support env.hwaccelsQuery
      match process_dirs env gpu_type parsed.1 parsed.2.1 parsed.2.2.1 parsed.2.2.2 with
      | some _ => 1
      | none => 0

/-! ### The fisheye-capable variant (not among the source files) -/

/-- Modelled from the spec: the fisheye-capable variant of the converter
(`--fisheye=<model>`, spec §4.3 rule 5, §4.2, §6) is not among the source
files under `src/` — `src/convert_prores.py` is the force/proxy/scale variant
of the four observed script variants and parses no `--fisheye` flag.  Per the
spec's words: when `fisheye_camera_model` is set and lens correction is
available, a video-filter argument invoking the lens-correction filter
parameterized with that camera model is inserted before the mezzanine
encoding flags; the proxy target's filter chain is independent of the
mezzanine chain and never receives the fisheye filter.  The proxy target is
returned as a separate argument list (spec §4.3 rule 6 allows either form). -/
def build_commands_fisheye (input_file gpu_type prores_out proxy_out : String)
    (lens_correction_available : Bool) (fisheye_camera_model : Option String)
    (generate_proxy scale_proxy : Bool) : List String × List String :=
  let fisheye_filter : List String :=
    match fisheye_camera_model with
    | some model =>
      if lens_correction_available then ["-vf", "lensfun=camera_model=" ++ model] else []
    | none => []
  let mezz := ["ffmpeg", "-i", input_file] ++ hwaccel_flags gpu_type ++ fisheye_filter ++
    ["-c:v", "prores_ks", "-profile:v", "prores_hq", "-pix_fmt", "yuv422p",
     "-c:a", "copy", prores_out]
  let proxy :=
    if generate_proxy then
      ["-c:v", "libx265", "-crf", "28", "-preset", "medium", "-c:a", "aac"] ++
        (if scale_proxy then ["-vf", "scale=iw*0.5:ih*0.5"] else []) ++ [proxy_out]
    else []
  (mezz, proxy)

/-! ### Concrete environments for closed counterexamples and witnesses -/

/-- A benign world: both probes succeed, no output path exists, every
directory exists and contains one `clip.mov`, the capability query fails
(so detection degrades to "none"), and the encoder prints nothing. -/
def env0 : Env where
  videoProbe := fun _ => .ok (100, 10, "h264")
  audioProbe := fun _ => .ok "aac"
  pathExists := fun _ => false
  isdir := fun _ => true
  walkFiles := fun d => [joinPath d "clip.mov"]
  hwaccelsQuery := .error ()
  streamLines := fun _ => []
  returncode := fun _ => 0
  elapsedAt := fun _ => 1

/-- Like `env0`, except the mezzanine output `clip_prores.mov` already exists. -/
def env3 : Env := { env0 with pathExists := fun p => p == "clip_prores.mov" }

/-- Like `env0`, except the proxy output `clip_proxy.mp4` already exists. -/
def env7 : Env := { env0 with pathExists := fun p => p == "clip_proxy.mp4" }

/-- A world exhibiting the zero-total crash: the video probe fails (so
`nb_frames = 0`), directory `d` holds `d/clip.mov`, and the encoder emits one
ordinary progress line. -/
def env9 : Env where
  videoProbe := fun _ => .failed
  audioProbe := fun _ => .failed
  pathExists := fun _ => false
  isdir := fun d => d == "d"
  walkFiles := fun _ => ["d/clip.mov"]
  hwaccelsQuery := .ok "Hardware acceleration methods:"
  streamLines := fun _ => ["frame=   10 fps=25 q=30.0"]
  returncode := fun _ => 0
  elapsedAt := fun _ => 1

/-! ### Shared helper lemmas -/

/-- Every command `get_file_info` launches is an `ffprobe` invocation. -/
theorem probe_launches_ffprobe (env : Env) (p : String) :
    ∀ c ∈ (get_file_info env p).1, c.head? = some "ffprobe" := by
  intro c hc
  rcases hv : env.videoProbe p with _ | _ | v
  · simp [get_file_info, hv] at hc
  · simp [get_file_info, hv] at hc
    subst hc; rfl
  · obtain ⟨v1, v2, v3⟩ := v
    rcases ha : env.audioProbe p with _ | _ | a <;>
      simp [get_file_info, hv, ha] at hc
    · subst hc; rfl
    · rcases hc with hc | hc <;> subst hc <;> rfl
    · rcases hc with hc | hc <;> subst hc <;> rfl

/-- The acceleration argument block is one of its three possible values. -/
theorem hwaccel_flags_cases (gpu_type : String) :
    hwaccel_flags gpu_type = ["-hwaccel", "cuda"] ∨
    hwaccel_flags gpu_type = ["-hwaccel", "dxva2"] ∨
    hwaccel_flags gpu_type = [] := by
  unfold hwaccel_flags
  by_cases h1 : gpu_type = "nvidia"
  · left; rw [if_pos h1]
  · by_cases h2 : gpu_type = "amd"
    · right; left; rw [if_neg h1, if_pos h2]
    · right; right; rw [if_neg h1, if_neg h2]

/-- The mezzanine output path always contains an underscore (from the
`_prores` suffix). -/
theorem underscore_mem_prores (input_file : String) :
    '_' ∈ (prores_output_file input_file).data := by
  unfold prores_output_file
  apply mem_data_joinPath
  rw [str_data_append, str_data_append]
  simp

/-! ### Claim C1 -/

/-- C1: the claim says that with `nb_frames = 0` the ETA and percent
computations never raise a division error and both resolve to 0.  On the
code, for every parsed frame number and elapsed time: the ETA computation
(line 128) indeed never raises — but it resolves to `-elapsed`, not 0, when
`frame > 0` — while the percent computation `(frame / nb_frames) * 100`
(line 133) is unguarded and raises `ZeroDivisionError`, which the
`except (IndexError, ValueError)` clause of line 136 does not catch, as the
third conjunct shows on a concrete progress line. -/
theorem C1_zero_total_divides (frame : ℤ) (elapsed : ℚ) :
    eta_comp 0 frame elapsed = .ok (if frame > 0 then -elapsed else 0) ∧
    progress_update 0 frame elapsed = .error .zeroDivisionError ∧
    line_step 0 elapsed "frame=   10 fps=25 q=30.0" = .error .zeroDivisionError := by
  have heta_ok : ∀ fr : ℤ, ∃ q : ℚ, eta_comp 0 fr elapsed = .ok q := by
    intro fr
    unfold eta_comp
    by_cases hf : fr > 0
    · have hne : (fr : ℚ) ≠ 0 := Int.cast_ne_zero.mpr (by omega)
      rw [if_pos hf]
      simp only [pyDivQ, if_neg hne]
      exact ⟨_, rfl⟩
    · rw [if_neg hf]
      exact ⟨0, rfl⟩
  have hprog : ∀ fr : ℤ, progress_update 0 fr elapsed = .error .zeroDivisionError := by
    intro fr
    obtain ⟨q, hq⟩ := heta_ok fr
    unfold progress_update
    rw [hq]
    simp only [Int.cast_zero]
    have h0 : pyDivQ (fr : ℚ) 0 = .error .zeroDivisionError := by
      simp [pyDivQ]
    rw [h0]
    rfl
  refine ⟨?_, hprog frame, ?_⟩
  · unfold eta_comp
    by_cases hf : frame > 0
    · have hne : (frame : ℚ) ≠ 0 := Int.cast_ne_zero.mpr (by omega)
      rw [if_pos hf, if_pos hf]
      simp only [pyDivQ, if_neg hne, Int.cast_zero, zero_sub]
      show Except.ok (elapsed / (frame : ℚ) * -(frame : ℚ)) = Except.ok (-elapsed)
      rw [mul_neg, div_mul_cancel₀ elapsed hne]
    · rw [if_neg hf, if_neg hf]
  · have hp : parse_frame "frame=   10 fps=25 q=30.0" = .ok 10 := rfl
    have hx : (do
        let fr ← parse_frame "frame=   10 fps=25 q=30.0"
        progress_update 0 fr elapsed : Except PyExc ProgressUpdate) =
          .error .zeroDivisionError := by
      rw [hp]
      show progress_update 0 10 elapsed = .error .zeroDivisionError
      exact hprog 10
    unfold line_step
    rw [if_pos (show strContains "frame=   10 fps=25 q=30.0" "frame=" = true from rfl)]
    rw [hx]
    rfl

/-! ### Claim C5 -/

/-- C5: backend selection lowercases the raw backend listing and matches the
vendor tokens as substrings — so two listings with the same lowercasing
select the same backend — with nvidia (`"cuda"`/`"nvenc"`) taking priority
over amd (`"amf"`), then `"none"`; a failed query degrades to `"none"`
instead of raising. -/
theorem C5_backend_priority :
    (∀ r1 r2 : String, lowerStr r1 = lowerStr r2 →
      check_gpu_support (.ok r1) = check_gpu_support (.ok r2)) ∧
    (∀ raw : String,
      (strContains (lowerStr raw) "cuda" || strContains (lowerStr raw) "nvenc") = true →
      check_gpu_support (.ok raw) = "nvidia") ∧
    (∀ raw : String,
      (strContains (lowerStr raw) "cuda" || strContains (lowerStr raw) "nvenc") = false →
      strContains (lowerStr raw) "amf" = true →
      check_gpu_support (.ok raw) = "amd") ∧
    (∀ raw : String,
      (strContains (lowerStr raw) "cuda" || strContains (lowerStr raw) "nvenc") = false →
      strContains (lowerStr raw) "amf" = false →
      check_gpu_support (.ok raw) = "none") ∧
    check_gpu_support (.error ()) = "none" := by
  refine ⟨?_, ?_, ?_, ?_, rfl⟩
  · intro r1 r2 h
    simp only [check_gpu_support]
    rw [h]
  · intro raw h
    simp [check_gpu_support, h]
  · intro raw h1 h2
    simp [check_gpu_support, h1, h2]
  · intro raw h1 h2
    simp [check_gpu_support, h1, h2]

/-- C5 witness: a raw listing whose uppercase `CUDA` also lists `amf` still
selects nvidia first. -/
theorem C5_witness : check_gpu_support (.ok "Methods: CUDA amf") = "nvidia" :=
  C5_backend_priority.2.1 "Methods: CUDA amf" (by decide)

/-! ### Claim C9 -/

/-- C9: the claim says the process exits 1 exactly when zero directory
arguments are supplied and 0 in every other case.  The true parts hold: no
directories (or no arguments at all) exit 1; a batch that raises no uncaught
exception exits 0, and a missing root raises nothing (it is logged and
skipped).  But the first conjunct evaluates the code on a run with one valid
directory argument whose file has a failed probe (`nb_frames = 0`) and an
ordinary encoder progress line: the uncaught `ZeroDivisionError` of the
percent computation terminates the process with exit code 1, not 0. -/
theorem C9_exit_codes :
    main_exit env9 ["d"] = 1 ∧
    (parse_args ["d"]).2.2.2 = ["d"] ∧
    (∀ (env : Env) (args : List String),
      (parse_args args).2.2.2 = [] → main_exit env args = 1) ∧
    (∀ (env : Env) (args : List String), args ≠ [] → (parse_args args).2.2.2 ≠ [] →
      process_dirs env (check_gpu_support env.hwaccelsQuery) (parse_args args).1
        (parse_args args).2.1 (parse_args args).2.2.1 (parse_args args).2.2.2 = none →
      main_exit env args = 0) ∧
    (∀ (env : Env) (d gpu : String) (f g s : Bool), env.isdir d = false →
      process_directory env d gpu f g s = none) := by
  refine ⟨rfl, rfl, ?_, ?_, ?_⟩
  · intro env args h
    by_cases ha : args = []
    · simp only [main_exit]
      rw [if_pos ha]
    · simp only [main_exit]
      rw [if_neg ha, if_pos h]
  · intro env args ha hd hp
    simp only [main_exit]
    rw [if_neg ha, if_neg hd, hp]
  · intro env d gpu f g s h
    simp [process_directory, h]

/-- C9 witness: a run whose arguments contain only flags and no directory
exits with code 1. -/
theorem C9_witness : main_exit env0 ["--proxy"] = 1 :=
  C9_exit_codes.2.2.1 env0 ["--proxy"] (by decide)

/-! ### Claim C10 -/

/-- Directories accumulated by the argument fold, relative to any starting
accumulator: exactly the arguments that are not one of the four flags. -/
theorem parse_foldl_dirs (args : List String) :
    ∀ acc : Bool × Bool × Bool × List String,
      (args.foldl parse_step acc).2.2.2 =
        acc.2.2.2 ++ args.filter (fun a =>
          !(a == "-f" || a == "--force" || a == "--proxy" || a == "--scale")) := by
  induction args with
  | nil => intro acc; simp
  | cons a rest ih =>
    intro acc
    simp only [List.foldl_cons, List.filter_cons, parse_step]
    by_cases h1 : a = "-f" ∨ a = "--force"
    · rw [if_pos h1, ih]
      rcases h1 with h | h <;> subst h <;> simp
    · rw [if_neg h1]
      by_cases h2 : a = "--proxy"
      · rw [if_pos h2, ih]; subst h2; simp
      · rw [if_neg h2]
        by_cases h3 : a = "--scale"
        · rw [if_pos h3, ih]; subst h3; simp
        · rw [if_neg h3, ih]
          push_neg at h1
          simp [h1.1, h1.2, h2, h3, List.append_assoc]

/-- C10: the argument parser recognizes only `-f`, `--force`, `--proxy` and
`--scale`; every other argument — including `--help` and `--fisheye=<model>`
— is collected as a positional root-directory path. -/
theorem C10_unrecognized_args_are_directories :
    (∀ args : List String, (parse_args args).2.2.2 =
      args.filter (fun a =>
        !(a == "-f" || a == "--force" || a == "--proxy" || a == "--scale"))) ∧
    (parse_args ["--help", "--fisheye=GoProHero9", "-f"]).2.2.2 =
      ["--help", "--fisheye=GoProHero9"] := by
  constructor
  · intro args
    unfold parse_args
    rw [parse_foldl_dirs args (false, false, false, [])]
    rfl
  · decide

/-! ### Claim C2 -/

/-- C2 counterexample: for `clip.txt` — whose extension is not recognized —
the launch trace is not empty: the two `ffprobe` metadata probes run before
the extension check (line 59 precedes line 64), so the claim that "no
subprocess of any kind is launched" for such a file is false. -/
theorem C2_counterexample :
    (convert_to_prores_and_proxy env0 "clip.txt" "none" false false false).1 =
      [ffprobe_video_cmd "clip.txt", ffprobe_audio_cmd "clip.txt"] ∧
    (convert_to_prores_and_proxy env0 "clip.txt" "none" false false false).1 ≠ [] :=
  ⟨by decide, by decide⟩

/-- C2 amended: for every input whose extension (lowercased) is not in the
recognized set, no encode command is built and no encode subprocess is
launched — the launch trace is exactly the metadata probe's launches, all of
which are `ffprobe` invocations. -/
theorem C2_unsupported_ext_probes_only (env : Env) (input gpu : String) (f g s : Bool)
    (hext : lowerStr (splitext (basename input)).2 ∉ VIDEO_EXTENSIONS) :
    (convert_to_prores_and_proxy env input gpu f g s).1 = (get_file_info env input).1 ∧
    ∀ c ∈ (convert_to_prores_and_proxy env input gpu f g s).1,
      c.head? = some "ffprobe" := by
  have h : (convert_to_prores_and_proxy env input gpu f g s).1 =
      (get_file_info env input).1 := by
    simp only [convert_to_prores_and_proxy]
    rw [if_neg hext]
  exact ⟨h, fun c hc => probe_launches_ffprobe env input c (h ▸ hc)⟩

/-- C2 witness: the amended theorem applied to `clip.txt` in the concrete
world `env0`. -/
theorem C2_witness :
    (convert_to_prores_and_proxy env0 "clip.txt" "none" false false false).1 =
      (get_file_info env0 "clip.txt").1 :=
  (C2_unsupported_ext_probes_only env0 "clip.txt" "none" false false false (by decide)).1

/-! ### Claim C3 -/

/-- C3 counterexample: with the mezzanine output `clip_prores.mov` already
present and force off, the launch trace for `clip.mov` is not empty — the two
`ffprobe` probes run before the exists-check (line 59 precedes line 71) — so
the claim that "no subprocess is launched" for such a file is false. -/
theorem C3_counterexample :
    (convert_to_prores_and_proxy env3 "clip.mov" "none" false false false).1 =
      [ffprobe_video_cmd "clip.mov", ffprobe_audio_cmd "clip.mov"] ∧
    (convert_to_prores_and_proxy env3 "clip.mov" "none" false false false).1 ≠ [] :=
  ⟨by decide, by decide⟩

/-- C3 amended: for every input with a recognized extension whose mezzanine
output path already exists while force is off, no encode subprocess is
launched (the trace is exactly the read-only `ffprobe` probe launches, so
nothing launched can write the existing output, which stays byte-identical)
and the conversion raises nothing. -/
theorem C3_existing_output_probes_only (env : Env) (input gpu : String) (g s : Bool)
    (hext : lowerStr (splitext (basename input)).2 ∈ VIDEO_EXTENSIONS)
    (hex : env.pathExists (prores_output_file input) = true) :
    (convert_to_prores_and_proxy env input gpu false g s).1 = (get_file_info env input).1 ∧
    (∀ c ∈ (convert_to_prores_and_proxy env input gpu false g s).1,
      c.head? = some "ffprobe") ∧
    ¬ may_write (convert_to_prores_and_proxy env input gpu false g s).1
        (prores_output_file input) ∧
    (convert_to_prores_and_proxy env input gpu false g s).2 = none := by
  have h : convert_to_prores_and_proxy env input gpu false g s =
      ((get_file_info env input).1, none) := by
    simp only [convert_to_prores_and_proxy]
    rw [if_pos hext]
    rw [if_pos (show (env.pathExists (prores_output_file input) && !false) = true by
      rw [hex]; rfl)]
  have hall : ∀ c ∈ (convert_to_prores_and_proxy env input gpu false g s).1,
      c.head? = some "ffprobe" := by
    intro c hc
    rw [h] at hc
    exact probe_launches_ffprobe env input c hc
  refine ⟨by rw [h], hall, ?_, by rw [h]⟩
  rintro ⟨c, hc, hhead, -⟩
  have := hall c hc
  rw [this] at hhead
  simp at hhead

/-- C3 witness: the amended theorem applied to `clip.mov` in the concrete
world `env3`, where `clip_prores.mov` exists. -/
theorem C3_witness :
    (convert_to_prores_and_proxy env3 "clip.mov" "none" false false false).1 =
      (get_file_info env3 "clip.mov").1 :=
  (C3_existing_output_probes_only env3 "clip.mov" "none" false false (by decide)
    (by decide)).1

/-! ### Claim C4 -/

/-- C4: the claim says the decode-acceleration flag is placed before the
input-file argument.  On the code the base command is
`["ffmpeg", "-i", input_file]` (line 80) and the acceleration arguments are
appended after it (lines 83–86), so for both backends the flag follows the
input argument — the concrete final conjuncts exhibit the input at index 2
and `-hwaccel` at index 3.  (With backend "none" nothing is added, as the
third conjunct shows; `check_gpu_support` returns exactly "nvidia", "amd" or
"none".) -/
theorem C4_hwaccel_after_input :
    (∀ (input pr px : String) (g s : Bool),
      build_command input "nvidia" pr px g s =
        ["ffmpeg", "-i", input, "-hwaccel", "cuda"] ++
          (["-c:v", "prores_ks", "-profile:v", "prores_hq", "-pix_fmt", "yuv422p",
            "-c:a", "copy", pr] ++
            (if g then
              ["-c:v", "libx265", "-crf", "28", "-preset", "medium", "-c:a", "aac"] ++
                (if s then ["-vf", "scale=iw*0.5:ih*0.5"] else []) ++ [px]
            else []))) ∧
    (∀ (input pr px : String) (g s : Bool),
      build_command input "amd" pr px g s =
        ["ffmpeg", "-i", input, "-hwaccel", "dxva2"] ++
          (["-c:v", "prores_ks", "-profile:v", "prores_hq", "-pix_fmt", "yuv422p",
            "-c:a", "copy", pr] ++
            (if g then
              ["-c:v", "libx265", "-crf", "28", "-preset", "medium", "-c:a", "aac"] ++
                (if s then ["-vf", "scale=iw*0.5:ih*0.5"] else []) ++ [px]
            else []))) ∧
    (∀ (input pr px : String) (g s : Bool),
      build_command input "none" pr px g s =
        ["ffmpeg", "-i", input] ++
          (["-c:v", "prores_ks", "-profile:v", "prores_hq", "-pix_fmt", "yuv422p",
            "-c:a", "copy", pr] ++
            (if g then
              ["-c:v", "libx265", "-crf", "28", "-preset", "medium", "-c:a", "aac"] ++
                (if s then ["-vf", "scale=iw*0.5:ih*0.5"] else []) ++ [px]
            else []))) ∧
    (build_command "clip.mov" "nvidia" "clip_prores.mov" "clip_proxy.mp4"
        false false).take 5 = ["ffmpeg", "-i", "clip.mov", "-hwaccel", "cuda"] ∧
    (build_command "clip.mov" "nvidia" "clip_prores.mov" "clip_proxy.mp4"
        false false).take 3 = ["ffmpeg", "-i", "clip.mov"] := by
  refine ⟨?_, ?_, ?_, by decide, by decide⟩ <;>
    intro input pr px g s <;> cases g <;> cases s <;>
    simp [build_command, hwaccel_flags]

/-! ### Claim C6 -/

/-- C6 counterexample: for `clip.mov` with no flags and no existing outputs,
three subprocesses are launched (two `ffprobe` probes and one `ffmpeg`
encode), so the claim that exactly one subprocess is invoked is false. -/
theorem C6_counterexample :
    (convert_to_prores_and_proxy env0 "clip.mov" "none" false false false).1.length = 3 ∧
    ¬ (convert_to_prores_and_proxy env0 "clip.mov" "none" false false false).1.length = 1 :=
  ⟨by decide, by decide⟩

/-- C6 amended: for `clip.mov` with no flags and the mezzanine output absent,
exactly one launched subprocess is an `ffmpeg` encode (the metadata probes
precede it), and that command's arguments contain `prores_ks`, `prores_hq`
and `yuv422p` and end with the output path `clip_prores.mov` (basename plus
`_prores` plus the original extension, here in the input's own directory). -/
theorem C6_scenarioA (env : Env) (gpu : String)
    (habs : env.pathExists "clip_prores.mov" = false) :
    ((convert_to_prores_and_proxy env "clip.mov" gpu false false false).1.filter
        (fun c => c.head? == some "ffmpeg")).length = 1 ∧
    ∃ c ∈ (convert_to_prores_and_proxy env "clip.mov" gpu false false false).1,
      c.head? = some "ffmpeg" ∧ "prores_ks" ∈ c ∧ "prores_hq" ∈ c ∧ "yuv422p" ∈ c ∧
      c.getLast? = some "clip_prores.mov" := by
  have hpr : prores_output_file "clip.mov" = "clip_prores.mov" := rfl
  have hcv : (convert_to_prores_and_proxy env "clip.mov" gpu false false false).1 =
      (get_file_info env "clip.mov").1 ++
        [build_command "clip.mov" gpu (prores_output_file "clip.mov")
          (proxy_output_file "clip.mov") false false] := by
    simp only [convert_to_prores_and_proxy]
    rw [if_pos (show lowerStr (splitext (basename "clip.mov")).2 ∈ VIDEO_EXTENSIONS by
      decide)]
    rw [if_neg (show ¬((env.pathExists (prores_output_file "clip.mov") && !false) = true) by
      rw [hpr, habs]; decide)]
    rfl
  have hcmd : "prores_ks" ∈ build_command "clip.mov" gpu (prores_output_file "clip.mov")
        (proxy_output_file "clip.mov") false false ∧
      "prores_hq" ∈ build_command "clip.mov" gpu (prores_output_file "clip.mov")
        (proxy_output_file "clip.mov") false false ∧
      "yuv422p" ∈ build_command "clip.mov" gpu (prores_output_file "clip.mov")
        (proxy_output_file "clip.mov") false false ∧
      (build_command "clip.mov" gpu (prores_output_file "clip.mov")
        (proxy_output_file "clip.mov") false false).getLast? = some "clip_prores.mov" := by
    rcases hwaccel_flags_cases gpu with hw | hw | hw <;>
      simp only [build_command, hw, hpr] <;> decide
  constructor
  · rw [hcv, List.filter_append]
    have h1 : ((get_file_info env "clip.mov").1.filter
        (fun c => c.head? == some "ffmpeg")) = [] := by
      apply List.filter_eq_nil_iff.mpr
      intro c hc
      rw [probe_launches_ffprobe env "clip.mov" c hc]
      decide
    rw [h1]
    rfl
  · refine ⟨build_command "clip.mov" gpu (prores_output_file "clip.mov")
      (proxy_output_file "clip.mov") false false, ?_, rfl, hcmd.1, hcmd.2.1, hcmd.2.2.1,
      hcmd.2.2.2⟩
    rw [hcv]
    exact List.mem_append_right _ (by simp)

/-- C6 witness: the amended theorem applied in the concrete world `env0`. -/
theorem C6_witness :
    ((convert_to_prores_and_proxy env0 "clip.mov" "none" false false false).1.filter
        (fun c => c.head? == some "ffmpeg")).length = 1 :=
  (C6_scenarioA env0 "none" (by decide)).1

/-! ### Claim C7 -/

/-- C7: when the proxy output of a job already exists and force is off,
proxy generation is disabled for that job only: the job's single built
command is exactly the mezzanine command — it contains no `libx265` proxy
encode argument — while a second job of the same run whose proxy output is
absent still gets the full proxy argument block appended after its mezzanine
arguments. -/
theorem C7_proxy_exists_subskip (env : Env) (input1 input2 gpu : String) (sp : Bool)
    (hext1 : lowerStr (splitext (basename input1)).2 ∈ VIDEO_EXTENSIONS)
    (hmez1 : env.pathExists (prores_output_file input1) = false)
    (hpx1 : env.pathExists (proxy_output_file input1) = true)
    (hext2 : lowerStr (splitext (basename input2)).2 ∈ VIDEO_EXTENSIONS)
    (hmez2 : env.pathExists (prores_output_file input2) = false)
    (hpx2 : env.pathExists (proxy_output_file input2) = false) :
    (convert_to_prores_and_proxy env input1 gpu false true sp).1 =
      (get_file_info env input1).1 ++
        [["ffmpeg", "-i", input1] ++ hwaccel_flags gpu ++
          ["-c:v", "prores_ks", "-profile:v", "prores_hq", "-pix_fmt", "yuv422p",
           "-c:a", "copy", prores_output_file input1]] ∧
    "libx265" ∉ (["ffmpeg", "-i", input1] ++ hwaccel_flags gpu ++
        ["-c:v", "prores_ks", "-profile:v", "prores_hq", "-pix_fmt", "yuv422p",
         "-c:a", "copy", prores_output_file input1]) ∧
    (convert_to_prores_and_proxy env input2 gpu false true sp).1 =
      (get_file_info env input2).1 ++
        [["ffmpeg", "-i", input2] ++ hwaccel_flags gpu ++
          ["-c:v", "prores_ks", "-profile:v", "prores_hq", "-pix_fmt", "yuv422p",
           "-c:a", "copy", prores_output_file input2] ++
          ["-c:v", "libx265", "-crf", "28", "-preset", "medium", "-c:a", "aac"] ++
          (if sp then ["-vf", "scale=iw*0.5:ih*0.5"] else []) ++
          [proxy_output_file input2]] := by
  refine ⟨?_, ?_, ?_⟩
  · have h1 : (convert_to_prores_and_proxy env input1 gpu false true sp).1 =
        (get_file_info env input1).1 ++
          [build_command input1 gpu (prores_output_file input1)
            (proxy_output_file input1) false sp] := by
      simp only [convert_to_prores_and_proxy]
      rw [if_pos hext1]
      rw [if_neg (show ¬((env.pathExists (prores_output_file input1) && !false) = true) by
        rw [hmez1]; decide)]
      rw [show (true && !(env.pathExists (proxy_output_file input1) && !false)) = false by
        rw [hpx1]; rfl]
    rw [h1]
    cases sp <;> simp [build_command, List.append_assoc]
  · intro hmem
    rcases List.mem_append.mp hmem with hmem | hmem
    · rcases List.mem_append.mp hmem with hmem | hmem
      · simp only [List.mem_cons, List.not_mem_nil, or_false] at hmem
        rcases hmem with h | h | h
        · exact absurd h (by decide)
        · exact absurd h (by decide)
        · rw [← h] at hext1
          exact absurd hext1 (by decide)
      · rcases hwaccel_flags_cases gpu with hw | hw | hw <;> rw [hw] at hmem
        · simp only [List.mem_cons, List.not_mem_nil, or_false] at hmem
          rcases hmem with h | h <;> exact absurd h (by decide)
        · simp only [List.mem_cons, List.not_mem_nil, or_false] at hmem
          rcases hmem with h | h <;> exact absurd h (by decide)
        · exact absurd hmem (by decide)
    · simp only [List.mem_cons, List.not_mem_nil, or_false] at hmem
      rcases hmem with h | h | h | h | h | h | h | h | h
      · exact absurd h (by decide)
      · exact absurd h (by decide)
      · exact absurd h (by decide)
      · exact absurd h (by decide)
      · exact absurd h (by decide)
      · exact absurd h (by decide)
      · exact absurd h (by decide)
      · exact absurd h (by decide)
      · have hu := underscore_mem_prores input1
        rw [← h] at hu
        exact absurd hu (by decide)
  · have h2 : (convert_to_prores_and_proxy env input2 gpu false true sp).1 =
        (get_file_info env input2).1 ++
          [build_command input2 gpu (prores_output_file input2)
            (proxy_output_file input2) true sp] := by
      simp only [convert_to_prores_and_proxy]
      rw [if_pos hext2]
      rw [if_neg (show ¬((env.pathExists (prores_output_file input2) && !false) = true) by
        rw [hmez2]; decide)]
      rw [show (true && !(env.pathExists (proxy_output_file input2) && !false)) = true by
        rw [hpx2]; rfl]
    rw [h2]
    cases sp <;> simp [build_command, List.append_assoc]

/-- C7 witness: the theorem applied in the concrete world `env7`, where
`clip_proxy.mp4` exists: the job for `clip.mov` gets the proxy-free
mezzanine command. -/
theorem C7_witness :
    (convert_to_prores_and_proxy env7 "clip.mov" "none" false true false).1 =
      (get_file_info env7 "clip.mov").1 ++
        [["ffmpeg", "-i", "clip.mov"] ++ hwaccel_flags "none" ++
          ["-c:v", "prores_ks", "-profile:v", "prores_hq", "-pix_fmt", "yuv422p",
           "-c:a", "copy", prores_output_file "clip.mov"]] :=
  (C7_proxy_exists_subskip env7 "clip.mov" "b.mov" "none" false (by decide) (by decide)
    (by decide) (by decide) (by decide) (by decide)).1

/-! ### Claim C8 -/

/-- Scenario D instantiated on the spec-modelled fisheye variant: input
`clip.mov`, `--fisheye=GoProHero9`, lens correction available, proxy and
scale requested, no hardware backend. -/
def fisheye_scenarioD : List String × List String :=
  build_commands_fisheye "clip.mov" "none" "clip_prores.mov" "clip_proxy.mp4"
    true (some "GoProHero9") true true

/-- C8 (on the spec-modelled fisheye variant, which is absent from `src/`):
with `--fisheye=GoProHero9` and the correction filter available, the
mezzanine command carries a `-vf` lens-correction argument referencing
`GoProHero9` positioned before the mezzanine encoding flags (`-c:v
prores_ks ...`), and the proxy command carries no argument referencing
`GoProHero9`. -/
theorem C8_fisheye_only_mezzanine :
    fisheye_scenarioD.1 =
      ["ffmpeg", "-i", "clip.mov", "-vf", "lensfun=camera_model=GoProHero9",
       "-c:v", "prores_ks", "-profile:v", "prores_hq", "-pix_fmt", "yuv422p",
       "-c:a", "copy", "clip_prores.mov"] ∧
    fisheye_scenarioD.1.indexOf "-vf" < fisheye_scenarioD.1.indexOf "-c:v" ∧
    (∃ arg ∈ fisheye_scenarioD.1, strContains arg "GoProHero9" = true) ∧
    (∀ arg ∈ fisheye_scenarioD.2, strContains arg "GoProHero9" = false) := by
  refine ⟨by decide, by decide, ?_, by decide⟩
  exact ⟨"lensfun=camera_model=GoProHero9", by decide, by decide⟩

end VidConvert
